import Mathlib

/-
Verification of the Hermes API gateway against its specification.

Shallow embedding of the relevant Python modules:
  - hermes/plugins/circuit_breaker.py  (CircuitBreaker)
  - hermes/gateway/matcher.py          (RouteMatcher.match_path)
  - hermes/gateway/balancer.py         (ConnectionTracker)
  - hermes/gateway/router.py           (gateway_proxy_handler connection accounting)
  - hermes/gateway/proxy.py            (proxy_request retry loop)
  - hermes/plugins/rate_limit.py       (TokenBucket, RateLimitPlugin.before_request)
  - hermes/registry/route_cache.py     (RouteCache.get_routes, _load_local_routes)
  - hermes/plugins/authentication.py   (AuthenticationPlugin._validate_token)
  - hermes/observability/metrics.py    (MetricsCollector.export_prometheus labels)

Conventions: Python floats carrying wall-clock times, token counts and rates
are modelled as rationals (only +, -, *, min and comparisons occur in the
source).  Mutable objects become explicit state passing.  `time.time()`
becomes an explicit `now` argument.
-/

/-! ### Circuit breaker (hermes/plugins/circuit_breaker.py) -/

/-- States of the breaker, mirroring the `CircuitState` enum. -/
inductive CircuitState
  | CLOSED
  | OPEN
  | HALF_OPEN
deriving DecidableEq

/-- The `CircuitBreaker` dataclass.  Times are rationals. -/
structure CircuitBreaker where
  failure_threshold : Nat
  success_threshold : Nat
  timeout : Rat
  state : CircuitState
  failure_count : Nat
  success_count : Nat
  last_failure_time : Rat
deriving DecidableEq

/-- Python `CircuitBreaker._trip`: open the breaker and reset the failure count. -/
def CircuitBreaker.trip (b : CircuitBreaker) : CircuitBreaker :=
  { b with state := CircuitState.OPEN, failure_count := 0 }

/-- Python `CircuitBreaker._reset`: close the breaker and reset both counters. -/
def CircuitBreaker.reset (b : CircuitBreaker) : CircuitBreaker :=
  { b with state := CircuitState.CLOSED, failure_count := 0, success_count := 0 }

/-- Python `CircuitBreaker.record_failure`, with `time.time()` passed in as `now`. -/
def CircuitBreaker.record_failure (now : Rat) (b : CircuitBreaker) : CircuitBreaker :=
  let b := { b with failure_count := b.failure_count + 1, last_failure_time := now }
  if b.state = CircuitState.HALF_OPEN then b.trip
  else if b.failure_threshold ≤ b.failure_count then b.trip
  else b

/-- Python `CircuitBreaker.record_success`. -/
def CircuitBreaker.record_success (b : CircuitBreaker) : CircuitBreaker :=
  if b.state = CircuitState.HALF_OPEN then
    let b := { b with success_count := b.success_count + 1 }
    if b.success_threshold ≤ b.success_count then b.reset else b
  else if b.state = CircuitState.CLOSED then
    { b with failure_count := 0 }
  else b

/-- Python `CircuitBreaker.allow_request`: returns the decision and the updated breaker. -/
def CircuitBreaker.allow_request (now : Rat) (b : CircuitBreaker) : Bool × CircuitBreaker :=
  if b.state = CircuitState.CLOSED then (true, b)
  else if b.state = CircuitState.OPEN then
    if b.timeout ≤ now - b.last_failure_time then
      (true, { b with state := CircuitState.HALF_OPEN, success_count := 0 })
    else (false, b)
  else (true, b)

/-- A sequence of consecutive `record_failure` calls at the given times. -/
def recordFailures (ts : List Rat) (b : CircuitBreaker) : CircuitBreaker :=
  ts.foldl (fun b t => CircuitBreaker.record_failure t b) b

/-- Invariant carried through a run of `record_failure` calls: either the
breaker is already open, or it is closed with enough remaining calls to reach
the failure threshold and a count still strictly below the threshold. -/
def BreakerInv (remaining : Nat) (b : CircuitBreaker) : Prop :=
  b.state = CircuitState.OPEN ∨
    (b.state = CircuitState.CLOSED ∧
      b.failure_threshold ≤ b.failure_count + remaining ∧
      b.failure_count < b.failure_threshold)

theorem record_failure_inv_step (n : Nat) (t : Rat) (b : CircuitBreaker)
    (h : BreakerInv (n + 1) b) : BreakerInv n (CircuitBreaker.record_failure t b) := by
  rcases h with hop | ⟨hcl, hle, hlt⟩
  · left
    unfold CircuitBreaker.record_failure CircuitBreaker.trip
    simp only [hop]
    split
    · simp_all
    · split <;> simp_all
  · unfold CircuitBreaker.record_failure CircuitBreaker.trip
    simp only [hcl]
    split
    · simp_all
    · split
      · left
        rfl
      · right
        refine ⟨rfl, ?_, ?_⟩ <;> simp_all
        all_goals omega

theorem recordFailures_inv (ts : List Rat) (b : CircuitBreaker)
    (h : BreakerInv ts.length b) : BreakerInv 0 (recordFailures ts b) := by
  induction ts generalizing b with
  | nil => exact h
  | cons t rest ih =>
      exact ih (CircuitBreaker.record_failure t b)
        (record_failure_inv_step rest.length t b h)

/-- C1: starting from CLOSED with a zero failure count, any run of at least
`failure_threshold` consecutive `record_failure` calls leaves the breaker
OPEN; and while OPEN, any `allow_request` call strictly before
`last_failure_time + timeout` returns `false` and leaves the breaker
unchanged, so no request is admitted during the cooldown window. -/
theorem circuit_breaker_trips_and_blocks :
    (∀ (b : CircuitBreaker) (ts : List Rat),
      b.state = CircuitState.CLOSED →
      b.failure_count = 0 →
      0 < b.failure_threshold →
      b.failure_threshold ≤ ts.length →
      (recordFailures ts b).state = CircuitState.OPEN) ∧
    (∀ (b : CircuitBreaker) (now : Rat),
      b.state = CircuitState.OPEN →
      now < b.last_failure_time + b.timeout →
      CircuitBreaker.allow_request now b = (false, b)) := by
  constructor
  · intro b ts hst hcnt hpos hlen
    have hinv : BreakerInv ts.length b := by
      right
      exact ⟨hst, by omega, by omega⟩
    have := recordFailures_inv ts b hinv
    rcases this with hop | ⟨_, hle, hlt⟩
    · exact hop
    · omega
  · intro b now hst hlt
    unfold CircuitBreaker.allow_request
    have hne : b.state ≠ CircuitState.CLOSED := by simp [hst]
    simp only [hst, if_neg hne]
    have : ¬ b.timeout ≤ now - b.last_failure_time := by
      intro hc
      have : b.last_failure_time + b.timeout ≤ now := by linarith
      linarith
    simp [this]

theorem circuit_breaker_trips_and_blocks_witness :
    ((⟨2, 2, 30, CircuitState.CLOSED, 0, 0, 0⟩ : CircuitBreaker).state = CircuitState.CLOSED ∧
      (2 : Nat) ≤ ([1, 2] : List Rat).length ∧
      (recordFailures ([1, 2] : List Rat)
        (⟨2, 2, 30, CircuitState.CLOSED, 0, 0, 0⟩ : CircuitBreaker)).state = CircuitState.OPEN) ∧
    ((5 : Rat) < 2 + 30 ∧
      CircuitBreaker.allow_request 5 (⟨2, 2, 30, CircuitState.OPEN, 0, 0, 2⟩ : CircuitBreaker) =
        (false, (⟨2, 2, 30, CircuitState.OPEN, 0, 0, 2⟩ : CircuitBreaker))) := by
  refine ⟨⟨rfl, by decide, ?_⟩, ⟨by norm_num, ?_⟩⟩
  · exact circuit_breaker_trips_and_blocks.1
      (⟨2, 2, 30, CircuitState.CLOSED, 0, 0, 0⟩ : CircuitBreaker)
      ([1, 2] : List Rat) rfl rfl (by decide) (by decide)
  · exact circuit_breaker_trips_and_blocks.2
      (⟨2, 2, 30, CircuitState.OPEN, 0, 0, 2⟩ : CircuitBreaker) 5 rfl (by norm_num)

/-! ### Connection tracking (hermes/gateway/balancer.py, hermes/gateway/router.py) -/

/-- Python `ConnectionTracker.acquire`: increment the active connection count. -/
def acquireConn (n : Int) : Int := n + 1

/-- Python `ConnectionTracker.release`: decrement, clamped at zero
(`max(0, active_connections - 1)`). -/
def releaseConn (n : Int) : Int := max 0 (n - 1)

/-- Exit paths of `gateway_proxy_handler` after an instance was selected and
acquired: a successful response, an exception from `proxy_request`, an
exception from the after-response plugin chain, or an exception from the
metrics recorder.  In the source the inner `try`/`finally` runs the release
on each of these paths. -/
inductive RequestOutcome
  | success
  | proxyError
  | afterResponseError
  | metricsError
deriving DecidableEq

/-- Connection accounting of `gateway_proxy_handler` over one request whose
instance selection succeeded: the tracker acquires before forwarding, and the
`finally` block releases on every exit path. -/
def gatewayHandlerConnections (n : Int) (o : RequestOutcome) : Int :=
  let afterAcquire := acquireConn n
  match o with
  | RequestOutcome.success => releaseConn afterAcquire
  | RequestOutcome.proxyError => releaseConn afterAcquire
  | RequestOutcome.afterResponseError => releaseConn afterAcquire
  | RequestOutcome.metricsError => releaseConn afterAcquire

/-- C3: for every request that selected an instance, the net change of the
instance's `active_connections` over the request is zero on every exit path
(given the counter was non-negative at entry, which `releaseConn` preserves),
and a release never drives the counter below zero. -/
theorem gateway_connection_delta_zero :
    (∀ (n : Int), 0 ≤ n → ∀ (o : RequestOutcome), gatewayHandlerConnections n o = n) ∧
    (∀ (n : Int), 0 ≤ releaseConn n) := by
  constructor
  · intro n hn o
    cases o <;>
      simp [gatewayHandlerConnections, acquireConn, releaseConn] <;> omega
  · intro n
    simp [releaseConn]

theorem gateway_connection_delta_zero_witness :
    (0 : Int) ≤ 7 ∧ gatewayHandlerConnections 7 RequestOutcome.proxyError = 7 :=
  ⟨by decide, gateway_connection_delta_zero.1 7 (by decide) RequestOutcome.proxyError⟩

/-! ### Proxy retry loop (hermes/gateway/proxy.py) -/

/-- Transport-level failures of one upstream attempt.  In `httpx`,
`TimeoutException` is a subclass of `RequestError`, so both variants are
caught by `except httpx.RequestError` inside the retry loop. -/
inductive TransportError
  | timeout
  | connect
deriving DecidableEq

/-- Outcome of a single `client.request` call. -/
inductive AttemptResult
  | success (status : Nat)
  | err (e : TransportError)
deriving DecidableEq

/-- How the `for attempt in range(max_retries + 1)` loop ends: a `break` with
the upstream status and the last recorded transport error, or an uncaught
re-`raise` of the final attempt's transport error. -/
inductive LoopExit
  | broke (status : Nat) (lastError : Option TransportError)
  | raised (e : TransportError)
deriving DecidableEq

/-- The retry loop of `proxy_request`.  The list holds the outcome each
attempt would have, one entry per loop iteration (`max_retries + 1` entries);
`attempt < max_retries` corresponds to the tail being nonempty.  The second
argument is the running `last_error`. -/
def retryLoop : List AttemptResult → Option TransportError → LoopExit
  | [], lastError => LoopExit.broke 502 lastError
  | AttemptResult.success st :: _, lastError => LoopExit.broke st lastError
  | AttemptResult.err e :: rest, _ =>
    if rest.isEmpty then LoopExit.raised e else retryLoop rest (some e)

/-- Number of upstream attempts `proxy_request` actually performs. -/
def attemptsUsed : List AttemptResult → Nat
  | [] => 0
  | AttemptResult.success _ :: _ => 1
  | AttemptResult.err _ :: rest => if rest.isEmpty then 1 else 1 + attemptsUsed rest

/-- Final status code produced by `proxy_request`: the loop result, the
`if last_error and status_code == 502: raise last_error` re-raise, and the
outer handlers mapping `TimeoutException` to 504 and other `RequestError`s
to 502. -/
def proxyStatus (attempts : List AttemptResult) : Nat :=
  match retryLoop attempts none with
  | LoopExit.broke st lastError =>
    match lastError with
    | some e =>
      if st = 502 then
        match e with
        | TransportError.timeout => 504
        | TransportError.connect => 502
      else st
    | none => st
  | LoopExit.raised TransportError.timeout => 504
  | LoopExit.raised TransportError.connect => 502

/-- C4 counterexample: with `max_retries = 1`, a first attempt that times out
is retried (two attempts are used) and a successful second attempt yields its
status, not the 504 Gateway Timeout response — so an upstream timeout is
neither "never retried" nor does it "immediately produce the 504 response". -/
theorem proxy_timeout_retried_counterexample :
    proxyStatus [AttemptResult.err TransportError.timeout, AttemptResult.success 200] = 200 ∧
    attemptsUsed [AttemptResult.err TransportError.timeout, AttemptResult.success 200] = 2 := by
  constructor <;> rfl

theorem retryLoop_all_errors (e : TransportError) :
    ∀ (n : Nat) (lastError : Option TransportError),
      retryLoop (List.replicate (n + 1) (AttemptResult.err e)) lastError = LoopExit.raised e := by
  intro n
  induction n with
  | zero => intro lastError; rfl
  | succ m ih =>
      intro lastError
      show retryLoop (AttemptResult.err e :: List.replicate (m + 1) (AttemptResult.err e)) lastError
        = LoopExit.raised e
      rw [retryLoop]
      simp only [List.isEmpty_iff, List.replicate_succ]
      rw [if_neg (by simp)]
      exact ih (some e)

/-- C4 amended: every transport error — a timeout included — is retried while
attempts remain (each such error adds one to the attempt count); only when
all `max_retries + 1` attempts time out does the 504 response appear, and
when all attempts fail with a non-timeout transport error the result is 502. -/
theorem proxy_retry_behavior :
    (∀ (e : TransportError) (a : AttemptResult) (rest : List AttemptResult),
      attemptsUsed (AttemptResult.err e :: a :: rest) = 1 + attemptsUsed (a :: rest)) ∧
    (∀ (n : Nat),
      proxyStatus (List.replicate (n + 1) (AttemptResult.err TransportError.timeout)) = 504) ∧
    (∀ (n : Nat),
      proxyStatus (List.replicate (n + 1) (AttemptResult.err TransportError.connect)) = 502) := by
  refine ⟨?_, ?_, ?_⟩
  · intro e a rest
    rw [attemptsUsed]
    simp
  · intro n
    unfold proxyStatus
    rw [retryLoop_all_errors TransportError.timeout n none]
  · intro n
    unfold proxyStatus
    rw [retryLoop_all_errors TransportError.connect n none]

/-! ### Rate limiter (hermes/plugins/rate_limit.py) -/

/-- The `TokenBucket` dataclass. -/
structure TokenBucket where
  capacity : Rat
  tokens : Rat
  refill_rate : Rat
  last_refill : Rat
deriving DecidableEq

/-- Python `TokenBucket.try_acquire`: refill lazily up to capacity, then consume
`need` tokens if available.  Returns the decision and the updated bucket. -/
def TokenBucket.try_acquire (now : Rat) (need : Rat) (b : TokenBucket) : Bool × TokenBucket :=
  let elapsed := now - b.last_refill
  let newTokens := min b.capacity (b.tokens + elapsed * b.refill_rate)
  if need ≤ newTokens then
    (true, { b with tokens := newTokens - need, last_refill := now })
  else
    (false, { b with tokens := newTokens, last_refill := now })

/-- Mutable state of `RateLimitPlugin` (rates, the global bucket and the two
lazily populated per-key bucket maps, as association lists). -/
structure RateLimitState where
  per_route_rate : Rat
  per_ip_rate : Rat
  burst_multiplier : Rat
  global_bucket : TokenBucket
  route_buckets : List (String × TokenBucket)
  ip_buckets : List (String × TokenBucket)
deriving DecidableEq

/-- Dictionary lookup in a bucket map. -/
def lookupBucket (key : String) : List (String × TokenBucket) → Option TokenBucket
  | [] => none
  | (k, b) :: rest => if k = key then some b else lookupBucket key rest

/-- Dictionary write in a bucket map (replace, or append when absent). -/
def setBucket (key : String) (b : TokenBucket) :
    List (String × TokenBucket) → List (String × TokenBucket)
  | [] => [(key, b)]
  | (k, b0) :: rest =>
    if k = key then (k, b) :: rest else (k, b0) :: setBucket key b rest

/-- A freshly created bucket: `capacity = tokens = rate * burst_multiplier`. -/
def freshBucket (rate burst now : Rat) : TokenBucket :=
  { capacity := rate * burst, tokens := rate * burst, refill_rate := rate, last_refill := now }

/-- Python `RateLimitPlugin._get_route_bucket`. -/
def get_route_bucket (now : Rat) (key : String) (st : RateLimitState) :
    TokenBucket × RateLimitState :=
  match lookupBucket key st.route_buckets with
  | some b => (b, st)
  | none =>
    let b := freshBucket st.per_route_rate st.burst_multiplier now
    (b, { st with route_buckets := setBucket key b st.route_buckets })

/-- Python `RateLimitPlugin._get_ip_bucket`. -/
def get_ip_bucket (now : Rat) (key : String) (st : RateLimitState) :
    TokenBucket × RateLimitState :=
  match lookupBucket key st.ip_buckets with
  | some b => (b, st)
  | none =>
    let b := freshBucket st.per_ip_rate st.burst_multiplier now
    (b, { st with ip_buckets := setBucket key b st.ip_buckets })

/-- The short-circuit response produced by the rate limiter. -/
structure RateLimitResponse where
  status_code : Nat
  content : String
  retry_after : String
  x_rate_limit_type : String
deriving DecidableEq

/-- Python `RateLimitPlugin._create_rate_limit_response`. -/
def create_rate_limit_response (limit_type : String) : RateLimitResponse :=
  { status_code := 429
  , content :=
      ("\x7b\x22error\x22: \x22Too Many Requests\x22, \x22type\x22: \x22") ++
        limit_type ++ ("\x22\x7d")
  , retry_after := "1"
  , x_rate_limit_type := limit_type }

/-- Python `RateLimitPlugin.before_request` (with the plugin enabled): the three
dimensions are tried in the order global, route, ip; a failed acquisition
short-circuits with a 429 response.  Mutation of a bucket object held in a
dict becomes a lookup followed by a write-back. -/
def before_request (now : Rat) (route_key client_ip : String) (st : RateLimitState) :
    RateLimitState × Option RateLimitResponse :=
  let gq := st.global_bucket.try_acquire now 1
  let st1 := { st with global_bucket := gq.2 }
  if gq.1 = false then (st1, some (create_rate_limit_response ("global")))
  else
    let rb := get_route_bucket now route_key st1
    let rq := rb.1.try_acquire now 1
    let st2 := { rb.2 with route_buckets := setBucket route_key rq.2 rb.2.route_buckets }
    if rq.1 = false then (st2, some (create_rate_limit_response ("route")))
    else
      let ib := get_ip_bucket now client_ip st2
      let iq := ib.1.try_acquire now 1
      let st3 := { ib.2 with ip_buckets := setBucket client_ip iq.2 ib.2.ip_buckets }
      if iq.1 = false then (st3, some (create_rate_limit_response ("ip")))
      else (st3, none)

/-- Staged pipeline, for relating `before_request` to its dimensions:
state after the global-bucket acquisition. -/
def stateAfterGlobal (now : Rat) (st : RateLimitState) : RateLimitState :=
  { st with global_bucket := (st.global_bucket.try_acquire now 1).2 }

/-- Whether the global dimension denies the request. -/
def globalDenied (now : Rat) (st : RateLimitState) : Bool :=
  !(st.global_bucket.try_acquire now 1).1

/-- Whether the route dimension denies the request (evaluated, as in the
source, on the state the global acquisition left behind). -/
def routeDenied (now : Rat) (route_key : String) (st : RateLimitState) : Bool :=
  !(((get_route_bucket now route_key (stateAfterGlobal now st)).1).try_acquire now 1).1

/-- State after the route-bucket acquisition. -/
def stateAfterRoute (now : Rat) (route_key : String) (st : RateLimitState) : RateLimitState :=
  let rb := get_route_bucket now route_key (stateAfterGlobal now st)
  { rb.2 with route_buckets := setBucket route_key (rb.1.try_acquire now 1).2 rb.2.route_buckets }

/-- Whether the ip dimension denies the request. -/
def ipDenied (now : Rat) (route_key client_ip : String) (st : RateLimitState) : Bool :=
  !(((get_ip_bucket now client_ip (stateAfterRoute now route_key st)).1).try_acquire now 1).1

/-- State after the ip-bucket acquisition. -/
def stateAfterIp (now : Rat) (route_key client_ip : String) (st : RateLimitState) :
    RateLimitState :=
  let ib := get_ip_bucket now client_ip (stateAfterRoute now route_key st)
  { ib.2 with ip_buckets := setBucket client_ip (ib.1.try_acquire now 1).2 ib.2.ip_buckets }

/-- C5: on every admission attempt the dimensions are evaluated in the order
global, route, ip; the first denying dimension short-circuits with the 429
response naming that dimension (with `Retry-After: 1`), later dimensions'
bucket maps are left untouched by an earlier denial, and when no dimension
denies there is no response. -/
theorem rate_limit_dimension_order :
    ∀ (now : Rat) (route_key client_ip : String) (st : RateLimitState),
      (globalDenied now st = true →
        before_request now route_key client_ip st =
          (stateAfterGlobal now st, some (create_rate_limit_response ("global"))) ∧
        (stateAfterGlobal now st).route_buckets = st.route_buckets ∧
        (stateAfterGlobal now st).ip_buckets = st.ip_buckets) ∧
      (globalDenied now st = false → routeDenied now route_key st = true →
        before_request now route_key client_ip st =
          (stateAfterRoute now route_key st, some (create_rate_limit_response ("route"))) ∧
        (stateAfterRoute now route_key st).ip_buckets = st.ip_buckets) ∧
      (globalDenied now st = false → routeDenied now route_key st = false →
        ipDenied now route_key client_ip st = true →
        before_request now route_key client_ip st =
          (stateAfterIp now route_key client_ip st, some (create_rate_limit_response ("ip")))) ∧
      (globalDenied now st = false → routeDenied now route_key st = false →
        ipDenied now route_key client_ip st = false →
        before_request now route_key client_ip st =
          (stateAfterIp now route_key client_ip st, none)) ∧
      (∀ (lt : String), (create_rate_limit_response lt).status_code = 429 ∧
        (create_rate_limit_response lt).retry_after = "1" ∧
        (create_rate_limit_response lt).x_rate_limit_type = lt) := by
  intro now route_key client_ip st
  have hresp : ∀ (lt : String), (create_rate_limit_response lt).status_code = 429 ∧
      (create_rate_limit_response lt).retry_after = "1" ∧
      (create_rate_limit_response lt).x_rate_limit_type = lt := fun lt => ⟨rfl, rfl, rfl⟩
  refine ⟨?_, ?_, ?_, ?_, hresp⟩
  · intro hg
    simp only [globalDenied, Bool.not_eq_true'] at hg
    refine ⟨?_, rfl, rfl⟩
    rw [before_request]
    simp only [hg, if_pos rfl]
    rfl
  · intro hg hr
    simp only [globalDenied, Bool.not_eq_false'] at hg
    simp only [routeDenied, stateAfterGlobal, Bool.not_eq_true'] at hr
    constructor
    · rw [before_request]
      simp only [hg]
      rw [if_neg (by simp)]
      simp only [stateAfterRoute, stateAfterGlobal]
      simp only [hr]
      simp
    · simp only [stateAfterRoute, stateAfterGlobal, get_route_bucket]
      cases h : lookupBucket route_key st.route_buckets <;> simp [h]
  · intro hg hr hi
    simp only [globalDenied, Bool.not_eq_false'] at hg
    simp only [routeDenied, stateAfterGlobal, Bool.not_eq_false'] at hr
    simp only [ipDenied, stateAfterRoute, stateAfterGlobal, Bool.not_eq_true'] at hi
    rw [before_request]
    simp only [hg]
    rw [if_neg (by simp)]
    simp only [hr]
    rw [if_neg (by simp)]
    simp only [stateAfterIp, stateAfterRoute, stateAfterGlobal]
    simp only [hi]
    simp
  · intro hg hr hi
    simp only [globalDenied, Bool.not_eq_false'] at hg
    simp only [routeDenied, stateAfterGlobal, Bool.not_eq_false'] at hr
    simp only [ipDenied, stateAfterRoute, stateAfterGlobal, Bool.not_eq_false'] at hi
    rw [before_request]
    simp only [hg]
    rw [if_neg (by simp)]
    simp only [hr]
    rw [if_neg (by simp)]
    simp only [stateAfterIp, stateAfterRoute, stateAfterGlobal]
    simp only [hi]
    simp

theorem rate_limit_dimension_order_witness :
    globalDenied 0
      (⟨1, 1, 1, ⟨10, 10, 0, 0⟩, [(("r" : String), ⟨1, 0, 0, 0⟩)], []⟩ : RateLimitState) = false ∧
    routeDenied 0 ("r")
      (⟨1, 1, 1, ⟨10, 10, 0, 0⟩, [(("r" : String), ⟨1, 0, 0, 0⟩)], []⟩ : RateLimitState) = true ∧
    (before_request 0 ("r") ("203.0.113.7")
        (⟨1, 1, 1, ⟨10, 10, 0, 0⟩, [(("r" : String), ⟨1, 0, 0, 0⟩)], []⟩ : RateLimitState) =
      (stateAfterRoute 0 ("r")
          (⟨1, 1, 1, ⟨10, 10, 0, 0⟩, [(("r" : String), ⟨1, 0, 0, 0⟩)], []⟩ : RateLimitState),
        some (create_rate_limit_response ("route"))) ∧
      (stateAfterRoute 0 ("r")
          (⟨1, 1, 1, ⟨10, 10, 0, 0⟩, [(("r" : String), ⟨1, 0, 0, 0⟩)], []⟩ : RateLimitState)).ip_buckets =
        (⟨1, 1, 1, ⟨10, 10, 0, 0⟩, [(("r" : String), ⟨1, 0, 0, 0⟩)], []⟩ : RateLimitState).ip_buckets) :=
  ⟨by norm_num [globalDenied, TokenBucket.try_acquire],
    by norm_num [routeDenied, stateAfterGlobal, get_route_bucket, lookupBucket,
      TokenBucket.try_acquire],
    (rate_limit_dimension_order 0 ("r") ("203.0.113.7")
        (⟨1, 1, 1, ⟨10, 10, 0, 0⟩, [(("r" : String), ⟨1, 0, 0, 0⟩)], []⟩ : RateLimitState)).2.1
      (by norm_num [globalDenied, TokenBucket.try_acquire])
      (by norm_num [routeDenied, stateAfterGlobal, get_route_bucket, lookupBucket,
        TokenBucket.try_acquire])⟩

/-- C8: a per-IP bucket lazily created for a previously unseen client IP has
capacity `per_ip_rate * burst_multiplier`; whenever that product is at least
1 (it is 150 under the default settings 100 × 1.5), and time has not gone
backwards since creation, the first acquisition of one token succeeds. -/
theorem fresh_ip_bucket_admits :
    ∀ (st : RateLimitState) (ip : String) (t0 t1 : Rat),
      lookupBucket ip st.ip_buckets = none →
      1 ≤ st.per_ip_rate * st.burst_multiplier →
      0 ≤ st.per_ip_rate →
      t0 ≤ t1 →
      (get_ip_bucket t0 ip st).1.capacity = st.per_ip_rate * st.burst_multiplier ∧
      1 ≤ (get_ip_bucket t0 ip st).1.capacity ∧
      ((get_ip_bucket t0 ip st).1.try_acquire t1 1).1 = true := by
  intro st ip t0 t1 hnone hcap hrate ht
  rw [get_ip_bucket]
  simp only [hnone]
  refine ⟨rfl, hcap, ?_⟩
  rw [TokenBucket.try_acquire]
  simp only [freshBucket]
  have helap : 0 ≤ (t1 - t0) * st.per_ip_rate := mul_nonneg (by linarith) hrate
  have hmin : min (st.per_ip_rate * st.burst_multiplier)
      (st.per_ip_rate * st.burst_multiplier + (t1 - t0) * st.per_ip_rate) =
      st.per_ip_rate * st.burst_multiplier := min_eq_left (by linarith)
  rw [hmin, if_pos hcap]

theorem fresh_ip_bucket_admits_witness :
    lookupBucket ("198.51.100.23")
      ((⟨1, 100, 3 / 2, ⟨1, 1, 1, 0⟩, [], []⟩ : RateLimitState)).ip_buckets = none ∧
    (1 : Rat) ≤ (⟨1, 100, 3 / 2, ⟨1, 1, 1, 0⟩, [], []⟩ : RateLimitState).per_ip_rate *
      (⟨1, 100, 3 / 2, ⟨1, 1, 1, 0⟩, [], []⟩ : RateLimitState).burst_multiplier ∧
    ((get_ip_bucket 0 ("198.51.100.23")
        (⟨1, 100, 3 / 2, ⟨1, 1, 1, 0⟩, [], []⟩ : RateLimitState)).1.try_acquire 0 1).1 = true :=
  ⟨rfl, by norm_num,
    (fresh_ip_bucket_admits (⟨1, 100, 3 / 2, ⟨1, 1, 1, 0⟩, [], []⟩ : RateLimitState)
      ("198.51.100.23") 0 0 rfl (by norm_num) (by norm_num) (by norm_num)).2.2⟩

/-- C10: token consumption across the three dimensions is not atomic — in
this concrete state the request is rejected by the route dimension with a
429, yet the global bucket has already lost one token and it is not
refunded: its token count strictly decreases. -/
theorem rate_limit_global_not_refunded :
    (before_request 0 ("r") ("203.0.113.9")
        (⟨1, 1, 1, ⟨10, 10, 0, 0⟩, [(("r" : String), ⟨1, 0, 0, 0⟩)], []⟩ : RateLimitState)).2 =
      some (create_rate_limit_response ("route")) ∧
    (before_request 0 ("r") ("203.0.113.9")
        (⟨1, 1, 1, ⟨10, 10, 0, 0⟩, [(("r" : String), ⟨1, 0, 0, 0⟩)], []⟩ :
          RateLimitState)).1.global_bucket.tokens <
      (⟨1, 1, 1, ⟨10, 10, 0, 0⟩, [(("r" : String), ⟨1, 0, 0, 0⟩)], []⟩ :
        RateLimitState).global_bucket.tokens := by
  constructor
  · norm_num [before_request, TokenBucket.try_acquire, get_route_bucket, lookupBucket,
      setBucket, create_rate_limit_response]
  · norm_num [before_request, TokenBucket.try_acquire, get_route_bucket, lookupBucket,
      setBucket]

/-! ### Route cache (hermes/registry/route_cache.py) -/

/-- The fields of `RouteInfo` relevant to merging and ordering. -/
structure Route where
  id : Int
  priority : Int
deriving DecidableEq

/-- Python `RouteCache._load_local_routes`: every locally loaded route has its
priority raised by `settings.local_routes_priority_boost`. -/
def load_local_routes (boost : Int) (rs : List Route) : List Route :=
  rs.map (fun r => { r with priority := r.priority + boost })

/-- Python `RouteCache.get_routes`: concatenate remote and (already boosted) local
routes and sort by priority descending.  Python's `sorted(..., reverse=True)`
is a stable merge sort, modelled by `List.mergeSort` under the
priority-descending total preorder. -/
def get_routes (remote localLoaded : List Route) : List Route :=
  (remote ++ localLoaded).mergeSort (fun a b => decide (b.priority ≤ a.priority))

/-- C6: after any refresh, `get_routes` returns exactly
`|remote| + |local|` entries sorted by priority descending, and — because of
a positive priority boost — every local route whose nominal (pre-boost)
priority equals a remote route's priority is placed strictly before that
remote route. -/
theorem get_routes_sorted_merge :
    ∀ (remote localRs : List Route) (boost : Int), 0 < boost →
      (get_routes remote (load_local_routes boost localRs)).length =
        remote.length + localRs.length ∧
      (∀ (i j : Nat) (hi : i < (get_routes remote (load_local_routes boost localRs)).length)
          (hj : j < (get_routes remote (load_local_routes boost localRs)).length), i < j →
        ((get_routes remote (load_local_routes boost localRs)).get ⟨j, hj⟩).priority ≤
          ((get_routes remote (load_local_routes boost localRs)).get ⟨i, hi⟩).priority) ∧
      (∀ (i j : Nat) (hi : i < (get_routes remote (load_local_routes boost localRs)).length)
          (hj : j < (get_routes remote (load_local_routes boost localRs)).length),
        (get_routes remote (load_local_routes boost localRs)).get ⟨i, hi⟩ ∈ remote →
        (get_routes remote (load_local_routes boost localRs)).get ⟨j, hj⟩ ∈
          load_local_routes boost localRs →
        ((get_routes remote (load_local_routes boost localRs)).get ⟨j, hj⟩).priority =
          ((get_routes remote (load_local_routes boost localRs)).get ⟨i, hi⟩).priority + boost →
        j < i) := by
  intro remote localRs boost hboost
  have hsorted : ∀ (i j : Nat)
      (hi : i < (get_routes remote (load_local_routes boost localRs)).length)
      (hj : j < (get_routes remote (load_local_routes boost localRs)).length), i < j →
      ((get_routes remote (load_local_routes boost localRs)).get ⟨j, hj⟩).priority ≤
        ((get_routes remote (load_local_routes boost localRs)).get ⟨i, hi⟩).priority := by
    have hp := @List.sorted_mergeSort Route
      (fun a b : Route => decide (b.priority ≤ a.priority))
      (fun a b c hab hbc => by
        simp only [decide_eq_true_eq] at hab hbc ⊢
        omega)
      (fun a b => by
        simp only [Bool.or_eq_true, decide_eq_true_eq]
        omega)
      (remote ++ load_local_routes boost localRs)
    rw [List.pairwise_iff_getElem] at hp
    intro i j hi hj hij
    have := hp i j hi hj hij
    simp only [decide_eq_true_eq] at this
    simpa [List.get_eq_getElem] using this
  refine ⟨?_, hsorted, ?_⟩
  · simp [get_routes, load_local_routes]
  · intro i j hi hj _hrem _hloc hpr
    by_contra hnot
    rcases Nat.lt_or_ge i j with hij | hge
    · have := hsorted i j hi hj hij
      omega
    · have hij : i = j := by omega
      subst hij
      omega

theorem get_routes_sorted_merge_witness :
    (0 : Int) < 1000 ∧
    (get_routes [(⟨1, 5⟩ : Route)] (load_local_routes 1000 [(⟨-1, 5⟩ : Route)])).length = 2 :=
  ⟨by decide, (get_routes_sorted_merge [(⟨1, 5⟩ : Route)] [(⟨-1, 5⟩ : Route)] 1000 (by decide)).1⟩

/-! ### Authentication plugin (hermes/plugins/authentication.py) -/

/-- Outcome of the POST to the auth service's validate endpoint: an HTTP
status, or a raised exception (timeout, connection failure, ...). -/
inductive AuthServiceReply
  | status (code : Nat)
  | exc
deriving DecidableEq

/-- Python `AuthenticationPlugin._validate_token`.  A token shorter than 10
characters is rejected up front.  With an auth service configured, the reply
is mapped: 200 returns valid, 401 returns invalid, any other status falls
out of the `if`/`elif` chain and reaches the final `return True`; only a
raised exception takes the degrade path governed by
`settings.auth_degrade_allow`.  Without an auth service the token passes. -/
def validate_token (token : String) (hasAuthService : Bool) (reply : AuthServiceReply)
    (auth_degrade_allow : Bool) : Bool :=
  if token.length < 10 then false
  else if hasAuthService then
    match reply with
    | AuthServiceReply.status code =>
      if code = 200 then true
      else if code = 401 then false
      else true
    | AuthServiceReply.exc => if auth_degrade_allow then true else false
  else true

/-- C7: the code maps 200 to valid and 401 to invalid, and on a raised
exception honours `auth_degrade_allow`; but for any other HTTP status
(here 503) it falls through to the trailing `return True` and allows the
request even with `auth_degrade_allow = false`, contradicting the
documented degrade semantics ("other status codes are treated as an auth
service anomaly"). -/
theorem validate_token_status_fallthrough :
    validate_token ("0123456789") true (AuthServiceReply.status 200) false = true ∧
    validate_token ("0123456789") true (AuthServiceReply.status 401) false = false ∧
    validate_token ("0123456789") true AuthServiceReply.exc false = false ∧
    validate_token ("0123456789") true AuthServiceReply.exc true = true ∧
    validate_token ("0123456789") true (AuthServiceReply.status 503) false = true := by
  refine ⟨rfl, rfl, rfl, rfl, rfl⟩

/-! ### Prometheus export labels (hermes/observability/metrics.py) -/

/-- The double-quote character. -/
def quoteChar : Char := Char.ofNat 34

/-- The backslash character. -/
def backslashChar : Char := Char.ofNat 92

/-- Character-level rendering of Python's `route.replace(chr(34), chr(92) + chr(34))`:
each double quote becomes backslash-quote. -/
def escQ : List Char → List Char
  | [] => []
  | c :: rest =>
    if c = quoteChar then backslashChar :: quoteChar :: escQ rest
    else c :: escQ rest

/-- The `safe_route` escaping applied to route label values. -/
def escapeQuotes (s : String) : String := String.mk (escQ s.data)

/-- The `hermes_route_requests_total` line for one route bucket. -/
def route_requests_line (route : String) (cnt : Nat) : String :=
  ("hermes_route_requests_total\x7broute=\x22") ++ escapeQuotes route ++
    ("\x22\x7d ") ++ toString cnt

/-- The `hermes_route_errors_total` line for one route bucket. -/
def route_errors_line (route : String) (cnt : Nat) : String :=
  ("hermes_route_errors_total\x7broute=\x22") ++ escapeQuotes route ++
    ("\x22\x7d ") ++ toString cnt

/-- The `hermes_service_requests_total` line for one service bucket: the
service id is interpolated with no escaping. -/
def service_requests_line (service : String) (cnt : Nat) : String :=
  ("hermes_service_requests_total\x7bservice=\x22") ++ service ++
    ("\x22\x7d ") ++ toString cnt

/-- The `hermes_service_errors_total` line for one service bucket. -/
def service_errors_line (service : String) (cnt : Nat) : String :=
  ("hermes_service_errors_total\x7bservice=\x22") ++ service ++
    ("\x22\x7d ") ++ toString cnt

/-- Scanner for the escaping property: true when every double quote in the
character list is immediately preceded by a backslash (`prev` is the
character before the list's head). -/
def noBareQuoteAux (prev : Char) : List Char → Bool
  | [] => true
  | c :: rest =>
    if c = quoteChar then
      if prev = backslashChar then noBareQuoteAux c rest else false
    else noBareQuoteAux c rest

theorem noBareQuote_escQ (l : List Char) : ∀ (prev : Char),
    noBareQuoteAux prev (escQ l) = true := by
  induction l with
  | nil => intro prev; rfl
  | cons c rest ih =>
    intro prev
    rw [escQ]
    by_cases hc : c = quoteChar
    · rw [if_pos hc]
      rw [noBareQuoteAux]
      rw [if_neg (by decide)]
      rw [noBareQuoteAux]
      rw [if_pos rfl, if_pos rfl]
      exact ih quoteChar
    · rw [if_neg hc]
      rw [noBareQuoteAux]
      rw [if_neg hc]
      exact ih c

/-- C9 counterexample: a double quote inside a service id is rendered
verbatim in the `hermes_service_requests_total` line, not escaped — the
export of the claimed (escaped) form differs from what the code produces. -/
theorem prometheus_service_label_counterexample :
    service_requests_line ("svc\x22a") 1 =
      ("hermes_service_requests_total\x7bservice=\x22svc\x22a\x22\x7d 1") ∧
    service_requests_line ("svc\x22a") 1 ≠
      ("hermes_service_requests_total\x7bservice=\x22svc\x5c\x22a\x22\x7d 1") := by
  constructor
  · rfl
  · decide

/-- C9 amended: in the Prometheus export every double quote occurring in the
route label value of the `hermes_route_*` lines is escaped (rendered
backslash-quote), but the service label values of the `hermes_service_*`
lines are interpolated verbatim, so a quote in a service id appears
unescaped. -/
theorem prometheus_label_escaping :
    (∀ (route : String) (prev : Char),
      noBareQuoteAux prev (escapeQuotes route).data = true) ∧
    (∀ (route : String) (cnt : Nat),
      route_requests_line route cnt =
        ("hermes_route_requests_total\x7broute=\x22") ++ escapeQuotes route ++
          ("\x22\x7d ") ++ toString cnt ∧
      route_errors_line route cnt =
        ("hermes_route_errors_total\x7broute=\x22") ++ escapeQuotes route ++
          ("\x22\x7d ") ++ toString cnt) ∧
    (service_requests_line ("svc\x22a") 1 =
      ("hermes_service_requests_total\x7bservice=\x22svc\x22a\x22\x7d 1") ∧
    service_errors_line ("svc\x22a") 1 =
      ("hermes_service_errors_total\x7bservice=\x22svc\x22a\x22\x7d 1") ∧
    noBareQuoteAux (Char.ofNat 32) (("svc\x22a").data) = false) := by
  refine ⟨?_, ?_, rfl, rfl, by decide⟩
  · intro route prev
    exact noBareQuote_escQ route.data prev
  · intro route cnt
    exact ⟨rfl, rfl⟩

/-! ### Route matcher (hermes/gateway/matcher.py)

`RouteMatcher.match_path` compiles the pattern to a regex (for `**` and
`\x7bname\x7d` patterns) or delegates to `fnmatch` (for `*`-only patterns).
The regex fragments that can arise from route patterns are modelled as a
token list: literals, `.` (any one character), `[^/]*` (a lone `*` inside a
`**` pattern), `.*` (a `**`, or any `*` under `fnmatch`, which is not
slash-aware), and `[^/]+` (a path parameter).  Newline-related regex
subtleties are not modelled: URL paths contain no newlines. -/

/-- Regex-fragment tokens. -/
inductive Tok
  | lit (c : Char)
  | dot
  | single
  | multi
  | param
deriving DecidableEq

/-- Whether the pattern contains `**` (the `"**" in pattern` test). -/
def hasDoubleStar : List Char → Bool
  | [] => false
  | '*' :: '*' :: _ => true
  | _ :: rest => hasDoubleStar rest

/-- Tokens of the `**` branch: `**` is reserved first via a placeholder and
becomes `.*`; a remaining lone `*` becomes `[^/]*`; `.` stays a regex dot;
everything else is literal. -/
def doubleStarTokens : List Char → List Tok
  | [] => []
  | '*' :: '*' :: rest => Tok.multi :: doubleStarTokens rest
  | '*' :: rest => Tok.single :: doubleStarTokens rest
  | '.' :: rest => Tok.dot :: doubleStarTokens rest
  | c :: rest => Tok.lit c :: doubleStarTokens rest

/-- Tokens of the `fnmatch.fnmatch` branch: `*` translates to `.*` (it is
not slash-aware), `?` to `.`, everything else is literal. -/
def fnmatchTokens : List Char → List Tok
  | [] => []
  | '*' :: rest => Tok.multi :: fnmatchTokens rest
  | '?' :: rest => Tok.dot :: fnmatchTokens rest
  | c :: rest => Tok.lit c :: fnmatchTokens rest

/-- Characters after the first closing brace, if any. -/
def afterBrace : List Char → Option (List Char)
  | [] => none
  | '}' :: rest => some rest
  | _ :: rest => afterBrace rest

/-- Tokens of the path-parameter branch: `re.sub` replaces every nonempty
brace group with `[^/]+`; an empty or unclosed group stays literal.
`fuel` bounds the recursion (the input length suffices). -/
def paramTokens : Nat → List Char → List Tok
  | 0, _ => []
  | _ + 1, [] => []
  | fuel + 1, '{' :: '}' :: rest => Tok.lit '{' :: Tok.lit '}' :: paramTokens fuel rest
  | fuel + 1, '{' :: rest =>
    (match afterBrace rest with
    | some rest2 => Tok.param :: paramTokens fuel rest2
    | none => Tok.lit '{' :: paramTokens fuel rest)
  | fuel + 1, '.' :: rest => Tok.dot :: paramTokens fuel rest
  | fuel + 1, c :: rest => Tok.lit c :: paramTokens fuel rest

/-- Anchored regex matching of a token list against the path, with full
backtracking; `fuel` bounds the recursion (token count plus path length
plus one suffices, as every step shrinks their sum). -/
def matchToks : Nat → List Tok → List Char → Bool
  | 0, _, _ => false
  | _ + 1, [], [] => true
  | _ + 1, [], _ :: _ => false
  | _ + 1, Tok.lit _ :: _, [] => false
  | fuel + 1, Tok.lit c :: ts, d :: ds => decide (c = d) && matchToks fuel ts ds
  | _ + 1, Tok.dot :: _, [] => false
  | fuel + 1, Tok.dot :: ts, _ :: ds => matchToks fuel ts ds
  | fuel + 1, Tok.single :: ts, [] => matchToks fuel ts []
  | fuel + 1, Tok.single :: ts, d :: ds =>
    matchToks fuel ts (d :: ds) ||
      (if d = '/' then false else matchToks fuel (Tok.single :: ts) ds)
  | fuel + 1, Tok.multi :: ts, [] => matchToks fuel ts []
  | fuel + 1, Tok.multi :: ts, d :: ds =>
    matchToks fuel ts (d :: ds) || matchToks fuel (Tok.multi :: ts) ds
  | _ + 1, Tok.param :: _, [] => false
  | fuel + 1, Tok.param :: ts, d :: ds =>
    if d = '/' then false
    else matchToks fuel ts ds || matchToks fuel (Tok.param :: ts) ds

/-- Python `RouteMatcher.match_path`: the `**` regex branch, then the `fnmatch`
branch, then the path-parameter branch, then exact equality. -/
def match_path (pattern path : String) : Bool :=
  if hasDoubleStar pattern.data then
    let toks := doubleStarTokens pattern.data
    matchToks (toks.length + path.data.length + 1) toks path.data
  else if pattern.data.contains '*' then
    let toks := fnmatchTokens pattern.data
    matchToks (toks.length + path.data.length + 1) toks path.data
  else if pattern.data.contains '{' then
    let toks := paramTokens (pattern.data.length + 1) pattern.data
    matchToks (toks.length + path.data.length + 1) toks path.data
  else pattern == path

/-- C2 counterexample: `match_path` on the pattern `/api/**` does NOT match
the bare prefix `/api` (the compiled regex demands the literal slash before
the `.*`), and on the pattern `/api/*` it DOES match the two-segment path
`/api/a/b` (the `fnmatch` star is not slash-aware) — both contrary to the
claim. -/
theorem match_path_wildcard_counterexample :
    match_path ("/api/**") ("/api") = false ∧
    match_path ("/api/*") ("/api/a/b") = true := by
  constructor
  · decide
  · decide

/-- C2 amended: `/api/**` rejects the bare prefix `/api` (but accepts
`/api/` and deeper paths such as `/api/a/b`), while in a pattern without
`**` the `fnmatch`-based `*` crosses segment boundaries: `/api/*` accepts
both `/api/a` and `/api/a/b`. -/
theorem match_path_wildcard_behavior :
    match_path ("/api/**") ("/api") = false ∧
    match_path ("/api/**") ("/api/") = true ∧
    match_path ("/api/**") ("/api/a/b") = true ∧
    match_path ("/api/*") ("/api/a") = true ∧
    match_path ("/api/*") ("/api/a/b") = true := by
  refine ⟨by decide, by decide, by decide, by decide, by decide⟩
